import Mathlib

/-!
Shallow embedding of the coordinate-transform and compositing core of
`src/src/components/PdfSigningTool.tsx` (the revision whose handlers are
`onPageRenderSuccess`, `onPageClick`, `applySignaturesAndDownload`,
`onDragStop`, `onResizeStop`).

Numbers are modelled as rationals; the source's decimal literal `0.3` is
embedded as `3 / 10`.  Division is the total rational division (`x / 0 = 0`);
where a claim depends on a zero divisor the accompanying comment records what
the source's IEEE arithmetic does at that input.  Opaque artifacts (PNG data
URLs, raw PDF bytes, parsed document handles) are modelled as tokens, since
the core only moves them around.
-/

namespace PdfSign

/-- Viewport entry stored by `onPageRenderSuccess` in `pageViewportSizes`:
the displayed pixel box (`width`, `height` from `getBoundingClientRect`) and
the intrinsic PDF-point box (`pdfWidth`, `pdfHeight` from `page.getSize()`). -/
structure ViewportEntry where
  width : ℚ
  height : ℚ
  pdfWidth : ℚ
  pdfHeight : ℚ
deriving DecidableEq

/-- Placed signature record (`PlacedSignature` in the source): page is
1-based, geometry is in display pixels, `imgDataUrl` is an opaque token for
the PNG data URL. -/
structure PlacedSignature where
  id : ℕ
  page : ℕ
  imgDataUrl : ℕ
  displayX : ℚ
  displayY : ℚ
  displayW : ℚ
  displayH : ℚ
deriving DecidableEq

/-- The viewport registry `pageViewportSizes.current`: a record keyed by page
number, modelled as an association list where the most recent binding for a
key shadows older ones. -/
abbrev Registry := List (ℕ × ViewportEntry)

/-- Lookup `pageViewportSizes.current[page]`: first (most recent) binding. -/
def lookupViewport : Registry → ℕ → Option ViewportEntry
  | [], _ => none
  | (p, e) :: rest, q => if p = q then some e else lookupViewport rest q

/-- The record assignment `pageViewportSizes.current[page] = entry`:
unconditional overwrite, modelled by shadowing. -/
def setViewport (reg : Registry) (page : ℕ) (e : ViewportEntry) : Registry :=
  (page, e) :: reg

/-- The `onPageRenderSuccess` handler: stores the four dimensions it is given
for the page, with no validation of any kind (source lines 571-587). -/
def onPageRenderSuccess (reg : Registry) (page : ℕ)
    (displayWidth displayHeight pdfWidth pdfHeight : ℚ) : Registry :=
  setViewport reg page ⟨displayWidth, displayHeight, pdfWidth, pdfHeight⟩

/-- The signature image captured from the pad: an opaque data-URL token plus
its intrinsic pixel dimensions (`img.width`, `img.height`). -/
structure SigImage where
  dataUrl : ℕ
  width : ℚ
  height : ℚ
deriving DecidableEq

/-- The `onPageClick` placement handler (source lines 590-631): if no
viewport entry exists for the page it returns with no state change;
otherwise it builds a record of width `viewport.width * 0.3`, height
preserving the image aspect (`displayW * (img.height / img.width)`),
centered on the click point, and appends it.  The id, generated in the
source from the clock and a random number, is passed in as `freshId`. -/
def onPageClick (reg : Registry) (sigs : List PlacedSignature) (pageNumber : ℕ)
    (clickX clickY : ℚ) (img : SigImage) (freshId : ℕ) : List PlacedSignature :=
  match lookupViewport reg pageNumber with
  | none => sigs
  | some viewport =>
      let desiredDisplayedSigWidth := viewport.width * (3 / 10)
      let aspect := img.height / img.width
      let displayW := desiredDisplayedSigWidth
      let displayH := displayW * aspect
      let displayX := clickX - displayW / 2
      let displayY := clickY - displayH / 2
      sigs ++ [{ id := freshId, page := pageNumber, imgDataUrl := img.dataUrl,
                 displayX := displayX, displayY := displayY,
                 displayW := displayW, displayH := displayH }]

/-- Axis-aligned rectangle `{x, y, w, h}`. -/
structure Rect where
  x : ℚ
  y : ℚ
  w : ℚ
  h : ℚ
deriving DecidableEq

/-- The display-to-point transform exactly as computed inside the export loop
of `applySignaturesAndDownload` (source lines 647-653): scale factors
`pxPerPdfPointX = width / pdfWidth`, `pxPerPdfPointY = height / pdfHeight`,
then `pdfX = x / pxPerPdfPointX`,
`pdfY = (height - (y + h)) / pxPerPdfPointY`, `pdfW = w / pxPerPdfPointX`,
`pdfH = h / pxPerPdfPointY`. -/
def toPointRect (viewport : ViewportEntry) (r : Rect) : Rect :=
  let pxPerPdfPointX := viewport.width / viewport.pdfWidth
  let pxPerPdfPointY := viewport.height / viewport.pdfHeight
  { x := r.x / pxPerPdfPointX
    y := (viewport.height - (r.y + r.h)) / pxPerPdfPointY
    w := r.w / pxPerPdfPointX
    h := r.h / pxPerPdfPointY }

/-- Transform written from the words of spec section 4.2, for comparison with
`toPointRect`: `sx = displayWidth / pdfWidth`, `sy = displayHeight / pdfHeight`,
`px = x / sx`, `py = (displayHeight - (y + h)) / sy`, `pw = w / sx`,
`ph = h / sy`. -/
def specPointRect (e : ViewportEntry) (r : Rect) : Rect :=
  let sx := e.width / e.pdfWidth
  let sy := e.height / e.pdfHeight
  { x := r.x / sx
    y := (e.height - (r.y + r.h)) / sy
    w := r.w / sx
    h := r.h / sy }

/-- Modelled from the spec: the inverse (point-to-display) transform of spec
section 4.2, which the repository does not implement as code (placement works
directly in display space); needed only to state the round-trip property.
With `sx`, `sy` as in `specPointRect`: `x = px * sx`, `w = pw * sx`,
`h = ph * sy`, and `y = displayHeight - (py * sy + h)` inverting the vertical
flip. -/
def toDisplayRect (e : ViewportEntry) (r : Rect) : Rect :=
  let sx := e.width / e.pdfWidth
  let sy := e.height / e.pdfHeight
  { x := r.x * sx
    y := e.height - (r.y * sy + r.h * sy)
    w := r.w * sx
    h := r.h * sy }

/-- One `page.drawImage(pngImage, {x, y, width, height})` call issued by the
export loop: the target page, the embedded PNG (token of the record's
`imgDataUrl`), and the point-space rectangle. -/
structure DrawOp where
  page : ℕ
  image : ℕ
  rect : Rect
deriving DecidableEq

/-- Display rectangle carried by a placed signature. -/
def displayRectOf (sig : PlacedSignature) : Rect :=
  ⟨sig.displayX, sig.displayY, sig.displayW, sig.displayH⟩

/-- The export loop of `applySignaturesAndDownload` (source lines 641-664):
iterates the placements in list order; a placement whose page has no
viewport entry is skipped (`continue`, counted here), every other placement
produces a draw call at its transformed rectangle.  Returns the draw calls in
issue order together with the number of skipped placements. -/
def exportOps (reg : Registry) : List PlacedSignature → List DrawOp × ℕ
  | [] => ([], 0)
  | sig :: rest =>
      let r := exportOps reg rest
      match lookupViewport reg sig.page with
      | none => (r.1, r.2 + 1)
      | some viewport =>
          (⟨sig.page, sig.imgDataUrl, toPointRect viewport (displayRectOf sig)⟩ :: r.1, r.2)

/-- The state the component threads through the handlers: the original input
bytes, the long-lived parsed handle `pdfLibDocRef` (opaque token), the
placement list, and the viewport registry. -/
structure ToolState where
  pdfArrayBuffer : Option (List ℕ)
  pdfLibDoc : Option ℕ
  placedSignatures : List PlacedSignature
  pageViewportSizes : Registry
deriving DecidableEq

/-- The output document of an export: determined by the bytes the compositor
freshly re-parses (`PDFDocument.load(pdfArrayBuffer)`) and the sequence of
draw calls applied to that fresh parse before `save()`. -/
structure SignedOutput where
  sourceBytes : List ℕ
  ops : List DrawOp
deriving DecidableEq

/-- The `applySignaturesAndDownload` handler (source lines 634-680): refuses
("Load a PDF first") when either the parsed handle or the raw bytes are
absent; otherwise re-parses the original bytes fresh and applies the export
loop.  No field of the state is written in either branch. -/
def applySignaturesAndDownload (st : ToolState) : Option SignedOutput × ToolState :=
  match st.pdfLibDoc, st.pdfArrayBuffer with
  | some _, some bytes =>
      (some ⟨bytes, (exportOps st.pageViewportSizes st.placedSignatures).1⟩, st)
  | _, _ => (none, st)

/-- The `onPageClick` handler lifted to the whole state: it only ever writes
the placement list (via `setPlacedSignatures`); the registry, bytes and
handle are untouched. -/
def onPageClickState (st : ToolState) (pageNumber : ℕ)
    (clickX clickY : ℚ) (img : SigImage) (freshId : ℕ) : ToolState :=
  let sigs := onPageClick st.pageViewportSizes st.placedSignatures pageNumber clickX clickY img freshId
  { st with placedSignatures := sigs }

/-- The `onDragStop` handler (source lines 878-886): maps over the list,
replacing `displayX`/`displayY` of every record whose id matches and leaving
all other records untouched. -/
def onDragStop (sigs : List PlacedSignature) (targetId : ℕ)
    (dx dy : ℚ) : List PlacedSignature :=
  sigs.map fun s =>
    if s.id = targetId then { s with displayX := dx, displayY := dy } else s

/-- The `onResizeStop` handler (source lines 887-903): maps over the list,
replacing `displayW`/`displayH`/`displayX`/`displayY` of every record whose
id matches with the values reported by the resize widget, with no validation,
and leaving all other records untouched. -/
def onResizeStop (sigs : List PlacedSignature) (targetId : ℕ)
    (newW newH newX newY : ℚ) : List PlacedSignature :=
  sigs.map fun s =>
    if s.id = targetId then
      { s with displayW := newW, displayH := newH, displayX := newX, displayY := newY }
    else s

end PdfSign

namespace PdfSign

/-- C1: for every placement rectangle and every viewport entry with all four
dimensions positive, the export transform of `applySignaturesAndDownload`
computes exactly the point-space rectangle of spec section 4.2
(`px = x / sx`, `py = (displayHeight - (y + h)) / sy`, `pw = w / sx`,
`ph = h / sy` with `sx = displayWidth / pdfWidth`,
`sy = displayHeight / pdfHeight`); in particular the entry
`(600, 800, 300, 400)` maps the display rectangle `(100, 100, 60, 40)` to
exactly `(50, 330, 30, 20)`. -/
theorem exportTransformMatchesSpecAndScenario :
    (∀ (e : ViewportEntry) (r : Rect),
        0 < e.width → 0 < e.height → 0 < e.pdfWidth → 0 < e.pdfHeight →
        toPointRect e r = specPointRect e r) ∧
    toPointRect ⟨600, 800, 300, 400⟩ ⟨100, 100, 60, 40⟩ = ⟨50, 330, 30, 20⟩ := by
  constructor
  · intro e r _ _ _ _
    rfl
  · simp only [toPointRect]
    norm_num

/-- Witness for C1 at the spec scenario entry and rectangle. -/
theorem exportTransformMatchesSpecAndScenario_witness :
    toPointRect ⟨600, 800, 300, 400⟩ ⟨100, 100, 60, 40⟩
      = specPointRect ⟨600, 800, 300, 400⟩ ⟨100, 100, 60, 40⟩ :=
  exportTransformMatchesSpecAndScenario.1 ⟨600, 800, 300, 400⟩ ⟨100, 100, 60, 40⟩
    (by norm_num) (by norm_num) (by norm_num) (by norm_num)

/-- C2: contrary to the claim, `onPageRenderSuccess` performs no validation:
an update whose `displayWidth` is `0` overwrites the previously stored
positive entry for the page, so the registry does not retain the previous
entry and can hold non-positive dimensions. -/
theorem viewportUpdateStoresNonpositiveDims :
    lookupViewport
        (onPageRenderSuccess (setViewport [] 1 ⟨600, 800, 300, 400⟩) 1 0 800 300 400) 1
      = some ⟨0, 800, 300, 400⟩ ∧
    lookupViewport
        (onPageRenderSuccess (setViewport [] 1 ⟨600, 800, 300, 400⟩) 1 0 800 300 400) 1
      ≠ some ⟨600, 800, 300, 400⟩ := by
  constructor
  · simp [onPageRenderSuccess, setViewport, lookupViewport]
  · simp [onPageRenderSuccess, setViewport, lookupViewport]

/-- C3: with a viewport entry present for the page (and a valid positive
display width and image width), `onPageClick` appends exactly one fresh
record to the placement list, leaving all existing records in place, whose
width is 30 percent of the display width, whose height preserves the image
aspect ratio, and which is centered on the click point. -/
theorem onPageClickAppendsCenteredAspectRecord
    (reg : Registry) (sigs : List PlacedSignature) (pageNumber freshId : ℕ)
    (clickX clickY : ℚ) (img : SigImage) (e : ViewportEntry)
    (hlook : lookupViewport reg pageNumber = some e)
    (hw : 0 < e.width) (_hiw : 0 < img.width) :
    ∃ sig : PlacedSignature,
      onPageClick reg sigs pageNumber clickX clickY img freshId = sigs ++ [sig] ∧
      sig.id = freshId ∧ sig.page = pageNumber ∧ sig.imgDataUrl = img.dataUrl ∧
      sig.displayW = e.width * (3 / 10) ∧
      sig.displayH / sig.displayW = img.height / img.width ∧
      sig.displayX = clickX - sig.displayW / 2 ∧
      sig.displayY = clickY - sig.displayH / 2 := by
  have hW : e.width * (3 / 10) ≠ 0 := by positivity
  refine ⟨⟨freshId, pageNumber, img.dataUrl,
      clickX - e.width * (3 / 10) / 2,
      clickY - e.width * (3 / 10) * (img.height / img.width) / 2,
      e.width * (3 / 10),
      e.width * (3 / 10) * (img.height / img.width)⟩, ?_, rfl, rfl, rfl, rfl, ?_, rfl, rfl⟩
  · unfold onPageClick
    rw [hlook]
  · exact mul_div_cancel_left₀ _ hW

/-- Witness for C3: a click at (300, 400) on page 1 of a 600 by 800 viewport
with a 2 by 1 image. -/
theorem onPageClickAppendsCenteredAspectRecord_witness :
    ∃ sig : PlacedSignature,
      onPageClick [(1, ⟨600, 800, 300, 400⟩)] [] 1 300 400 ⟨5, 2, 1⟩ 7 = [] ++ [sig] ∧
      sig.id = 7 ∧ sig.page = 1 ∧ sig.imgDataUrl = 5 ∧
      sig.displayW = (600 : ℚ) * (3 / 10) ∧
      sig.displayH / sig.displayW = (1 : ℚ) / 2 ∧
      sig.displayX = 300 - sig.displayW / 2 ∧
      sig.displayY = 400 - sig.displayH / 2 :=
  onPageClickAppendsCenteredAspectRecord [(1, ⟨600, 800, 300, 400⟩)] [] 1 7 300 400
    ⟨5, 2, 1⟩ ⟨600, 800, 300, 400⟩ rfl (by norm_num) (by norm_num)

/-- C4: a placement attempt on a page with no viewport entry is refused with
no state change at all: the whole component state (placements, registry,
bytes, handle) is returned unchanged. -/
theorem onPageClickNotReady (st : ToolState) (pageNumber freshId : ℕ)
    (clickX clickY : ℚ) (img : SigImage)
    (h : lookupViewport st.pageViewportSizes pageNumber = none) :
    onPageClickState st pageNumber clickX clickY img freshId = st := by
  unfold onPageClickState onPageClick
  rw [h]

/-- Witness for C4 on a state with an empty registry. -/
theorem onPageClickNotReady_witness :
    onPageClickState ⟨some [2], some 0, [], []⟩ 1 300 400 ⟨5, 2, 1⟩ 7
      = ⟨some [2], some 0, [], []⟩ :=
  onPageClickNotReady ⟨some [2], some 0, [], []⟩ 1 7 300 400 ⟨5, 2, 1⟩ rfl

/-- C5: the export loop composites exactly the placements whose page has a
viewport entry and skips exactly those whose page lacks one; with three
placements of which the middle one references a page with no entry, the
other two are composited in order and exactly one item is skipped. -/
theorem exportSkipsExactlyMissingViewports :
    (∀ (reg : Registry) (sigs : List PlacedSignature),
        (exportOps reg sigs).1
            = sigs.filterMap (fun sig =>
                (lookupViewport reg sig.page).map (fun viewport =>
                  ⟨sig.page, sig.imgDataUrl, toPointRect viewport (displayRectOf sig)⟩)) ∧
        (exportOps reg sigs).2
            = (sigs.filter (fun sig => (lookupViewport reg sig.page).isNone)).length) ∧
    exportOps [(1, ⟨600, 800, 300, 400⟩)]
        [⟨11, 1, 5, 100, 100, 60, 40⟩, ⟨12, 2, 6, 0, 0, 60, 40⟩, ⟨13, 1, 7, 200, 300, 30, 80⟩]
      = ([⟨1, 5, ⟨50, 330, 30, 20⟩⟩, ⟨1, 7, ⟨100, 210, 15, 40⟩⟩], 1) := by
  constructor
  · intro reg sigs
    induction sigs with
    | nil => simp [exportOps]
    | cons sig rest ih =>
        cases h : lookupViewport reg sig.page with
        | none => simp [exportOps, h, ih.1, ih.2]
        | some viewport => simp [exportOps, h, ih.1, ih.2]
  · simp only [exportOps, lookupViewport, displayRectOf, toPointRect]
    norm_num

/-- C6: export writes no component state (the bytes, handle, placements and
registry after `applySignaturesAndDownload` are exactly the input state),
a second export after a first one yields the same output, and the output
depends only on the original bytes, the placement snapshot, the viewport
snapshot and the mere presence of a parsed handle: it never reads the
long-lived handle itself, since it re-parses the original bytes fresh. -/
theorem exportPureIdempotentFreshParse :
    (∀ st : ToolState, (applySignaturesAndDownload st).2 = st) ∧
    (∀ st : ToolState,
        (applySignaturesAndDownload ((applySignaturesAndDownload st).2)).1
          = (applySignaturesAndDownload st).1) ∧
    (∀ st stB : ToolState,
        stB.pdfArrayBuffer = st.pdfArrayBuffer →
        stB.placedSignatures = st.placedSignatures →
        stB.pageViewportSizes = st.pageViewportSizes →
        stB.pdfLibDoc.isSome = st.pdfLibDoc.isSome →
        (applySignaturesAndDownload stB).1 = (applySignaturesAndDownload st).1) := by
  have hstate : ∀ st : ToolState, (applySignaturesAndDownload st).2 = st := by
    intro st
    obtain ⟨b, d, ps, vs⟩ := st
    cases d <;> cases b <;> rfl
  refine ⟨hstate, fun st => by rw [hstate st], ?_⟩
  intro st stB h1 h2 h3 h4
  obtain ⟨b, d, ps, vs⟩ := st
  obtain ⟨bB, dB, psB, vsB⟩ := stB
  simp only at h1 h2 h3 h4
  subst h1; subst h2; subst h3
  cases bB <;> cases d <;> cases dB <;> simp_all [applySignaturesAndDownload]

/-- Witness for C6: two states differing only in the value of the parsed
handle token produce the same export output. -/
theorem exportPureIdempotentFreshParse_witness :
    (applySignaturesAndDownload ⟨some [2], some 0, [], []⟩).1
      = (applySignaturesAndDownload ⟨some [2], some 1, [], []⟩).1 :=
  exportPureIdempotentFreshParse.2.2 ⟨some [2], some 1, [], []⟩ ⟨some [2], some 0, [], []⟩
    rfl rfl rfl rfl

/-- C7: for every display rectangle and every viewport entry with all four
dimensions positive, transforming to point space with the export transform
and back with the inverse transform of spec section 4.2 recovers the
original rectangle exactly (rational arithmetic). -/
theorem pointDisplayRoundTrip (e : ViewportEntry) (r : Rect)
    (hw : 0 < e.width) (hh : 0 < e.height)
    (hpw : 0 < e.pdfWidth) (hph : 0 < e.pdfHeight) :
    toDisplayRect e (toPointRect e r) = r := by
  have hsx : e.width / e.pdfWidth ≠ 0 := div_ne_zero (ne_of_gt hw) (ne_of_gt hpw)
  have hsy : e.height / e.pdfHeight ≠ 0 := div_ne_zero (ne_of_gt hh) (ne_of_gt hph)
  obtain ⟨x, y, w, h⟩ := r
  simp only [toDisplayRect, toPointRect]
  rw [Rect.mk.injEq]
  refine ⟨div_mul_cancel₀ _ hsx, ?_, div_mul_cancel₀ _ hsx, div_mul_cancel₀ _ hsy⟩
  rw [div_mul_cancel₀ _ hsy, div_mul_cancel₀ _ hsy]
  ring

/-- Witness for C7 at the spec scenario entry and rectangle. -/
theorem pointDisplayRoundTrip_witness :
    toDisplayRect ⟨600, 800, 300, 400⟩ (toPointRect ⟨600, 800, 300, 400⟩ ⟨100, 100, 60, 40⟩)
      = ⟨100, 100, 60, 40⟩ :=
  pointDisplayRoundTrip ⟨600, 800, 300, 400⟩ ⟨100, 100, 60, 40⟩
    (by norm_num) (by norm_num) (by norm_num) (by norm_num)

/-- C8: contrary to the claim, a page whose entry has `pdfWidth = 0` is not
rejected or skipped: export still composites the placement (skipped count 0)
at a degenerate rectangle, and placement on such a page still appends a
record.  In the model zero divisors make the x and w coordinates collapse to
0; in the source's IEEE arithmetic the scale is `Infinity` and the drawn
x and w likewise collapse to 0 (and become `NaN` when the display width is
zero as well), with no clean failure on either path. -/
theorem exportZeroScaleStillComposites :
    exportOps [(1, ⟨600, 800, 0, 400⟩)] [⟨1, 1, 5, 100, 100, 60, 40⟩]
        = ([⟨1, 5, ⟨0, 330, 0, 20⟩⟩], 0) ∧
    onPageClick [(1, ⟨600, 800, 0, 400⟩)] [] 1 300 400 ⟨5, 2, 1⟩ 7 ≠ [] := by
  constructor
  · simp only [exportOps, lookupViewport, displayRectOf, toPointRect]
    norm_num
  · simp [onPageClick, lookupViewport]

/-- C9: contrary to the claim, `onResizeStop` applies the reported geometry
with no validation: a resize of an existing record to width -5 stores
displayW = -5, a non-positive width, in the placement list.  The unknown-id
part of the claim does hold: a resize naming an absent id leaves the list
unchanged. -/
theorem resizeStoresNonpositiveWidth :
    onResizeStop [⟨1, 1, 5, 10, 10, 30, 20⟩] 1 (-5) 12 8 9
        = [⟨1, 1, 5, 8, 9, -5, 12⟩] ∧
    (⟨1, 1, 5, 8, 9, -5, 12⟩ : PlacedSignature).displayW ≤ 0 ∧
    onResizeStop [⟨1, 1, 5, 10, 10, 30, 20⟩] 42 50 60 0 0
        = [⟨1, 1, 5, 10, 10, 30, 20⟩] := by
  refine ⟨by simp [onResizeStop], by norm_num, by simp [onResizeStop]⟩

/-- C10: `onDragStop` maps the list pointwise (so length and order are
preserved): every record keeps its id, page, image data, width and height;
the record whose id matches the target gets exactly the new position; every
record whose id differs is entirely unchanged. -/
theorem dragStopUpdatesOnlyPosition
    (sigs : List PlacedSignature) (targetId : ℕ) (dx dy : ℚ) :
    List.Forall₂ (fun s t =>
        t.id = s.id ∧ t.page = s.page ∧ t.imgDataUrl = s.imgDataUrl ∧
        t.displayW = s.displayW ∧ t.displayH = s.displayH ∧
        (s.id = targetId → t.displayX = dx ∧ t.displayY = dy) ∧
        (s.id ≠ targetId → t = s))
      sigs (onDragStop sigs targetId dx dy) := by
  induction sigs with
  | nil => simp [onDragStop]
  | cons s rest ih =>
      simp only [onDragStop, List.map_cons]
      refine List.Forall₂.cons ?_ ?_
      · by_cases h : s.id = targetId <;> simp [h]
      · simpa [onDragStop] using ih

/-- Witness for C10 on a two-element list with target id 1. -/
theorem dragStopUpdatesOnlyPosition_witness :
    List.Forall₂ (fun s t =>
        t.id = s.id ∧ t.page = s.page ∧ t.imgDataUrl = s.imgDataUrl ∧
        t.displayW = s.displayW ∧ t.displayH = s.displayH ∧
        (s.id = 1 → t.displayX = 50 ∧ t.displayY = 60) ∧
        (s.id ≠ 1 → t = s))
      [⟨1, 1, 5, 10, 10, 30, 20⟩, ⟨2, 1, 5, 0, 0, 30, 20⟩]
      (onDragStop [⟨1, 1, 5, 10, 10, 30, 20⟩, ⟨2, 1, 5, 0, 0, 30, 20⟩] 1 50 60) :=
  dragStopUpdatesOnlyPosition [⟨1, 1, 5, 10, 10, 30, 20⟩, ⟨2, 1, 5, 0, 0, 30, 20⟩] 1 50 60

end PdfSign
